import Mathlib

/-!
Verification of the archive workflow orchestrator in
`src/examples/basic/simple_archive.py`.

The script is modelled as pure functions over an explicit description of
the injected client capability (`ClientBehavior`): the result of
`client.archives.create`, the update sequence delivered by
`client.stream.archive_updates`, a possible exception raised by the stream
after its delivered updates, and the result of `client.archives.get`.
Each run returns the ordered trace of observable events (client calls and
console reports, captured structurally) together with the process exit
code contributed by the operation (0 = normal return, 1 = `sys.exit(1)`).
-/

namespace SimpleArchive

/-- Mirror of the `ArchiveOptions` record built in `archive_url`. -/
structure ArchiveOptions where
  include_assets : Bool
  max_depth : Nat
  preserve_javascript : Bool
  timeout : Nat
  deriving DecidableEq, Repr

/-- The `access_urls` object carried by updates and records. -/
structure AccessUrls where
  view : String
  deriving DecidableEq, Repr

/-- One element of the monitoring stream (`ArchiveStatusUpdate`). -/
structure Update where
  status : String
  progress : Nat
  phase : String
  final_size : Nat
  access_urls : AccessUrls
  error : String
  deriving DecidableEq, Repr

/-- The acknowledgement returned by `client.archives.create`. -/
structure CreateResult where
  archive_id : String
  status : String
  total_cost : Nat
  deriving DecidableEq, Repr

/-- Exceptions the client capability may raise (caught as `Exception`). -/
inductive Exc where
  | notFoundError (msg : String) : Exc
  | transportError (msg : String) : Exc
  | validationError (msg : String) : Exc
  | genericError (msg : String) : Exc
  deriving DecidableEq, Repr

/-- Python `str(e)` inside an f-string: only the message is rendered. -/
def Exc.message : Exc → String
  | .notFoundError m => m
  | .transportError m => m
  | .validationError m => m
  | .genericError m => m

/-- The `archive.metadata` object of a looked-up record. -/
structure RecordMetadata where
  title : String
  deriving DecidableEq, Repr

/-- The `archive.storage_info` object of a looked-up record. -/
structure StorageInfo where
  integrity_score : Nat
  deriving DecidableEq, Repr

/-- The `ArchiveRecord` returned by `client.archives.get`. -/
structure ArchiveRecord where
  url : String
  metadata : RecordMetadata
  status : String
  size : Nat
  created_at : String
  replicas : List String
  storage_info : StorageInfo
  access_urls : AccessUrls
  deriving DecidableEq, Repr

deriving instance DecidableEq for Except

/-- Deterministic description of the injected client capability for one run. -/
structure ClientBehavior where
  createResult : Except Exc CreateResult
  updates : List Update
  streamTailErr : Option Exc
  lookupResult : Except Exc ArchiveRecord
  deriving DecidableEq, Repr

/-- Observable events of a run: client-capability calls and console
reports (each report captures the data of one print statement). -/
inductive Event where
  | clientConstructed : Event
  | submitCalled (url : String) (options : ArchiveOptions) : Event
  | subscribeCalled (archive_id : String) : Event
  | lookupCalled (archive_id : String) : Event
  | closeCalled : Event
  | reportSubmitted (archive_id : String) (status : String) (total_cost : Nat) : Event
  | reportProgress (progress : Nat) (phase : String) : Event
  | reportCompleted (final_size : Nat) (view : String) : Event
  | reportFailed (error : String) : Event
  | reportArchiveError (msg : String) : Event
  | reportLookupError (msg : String) : Event
  | reportRecord (url : String) (title : String) (status : String) (size : Nat)
      (created_at : String) (replica_count : Nat) (integrity_score : Nat)
      (view : String) : Event
  | reportUsage : Event
  | reportMissingApiKey : Event
  | reportInvalidUrl : Event
  deriving DecidableEq, Repr

/-- True for events that touch the client capability (construction,
submit, subscribe, lookup, close). -/
def isClientEvent : Event → Bool
  | .clientConstructed => true
  | .submitCalled _ _ => true
  | .subscribeCalled _ => true
  | .lookupCalled _ => true
  | .closeCalled => true
  | _ => false

def isCloseEvent : Event → Bool
  | .closeCalled => true
  | _ => false

def isProgressEvent : Event → Bool
  | .reportProgress _ _ => true
  | _ => false

/-- A terminal update is one with status completed or failed. -/
def isTerminal (u : Update) : Bool :=
  u.status = "completed" || u.status = "failed"

/-- Options built in `archive_url`: include_assets=True, max_depth=2,
preserve_javascript=False, timeout=30. -/
def defaultOptions : ArchiveOptions :=
  { include_assets := true, max_depth := 2, preserve_javascript := false,
    timeout := 30 }

/-- The `async for update in stream` loop body of `archive_url`:
processing prints progress and phase; completed prints final size and
view url and breaks; failed prints the error and breaks; any other
status produces nothing and continues. Returns the events and whether
the loop exited via `break`. -/
def processUpdates : List Update → List Event × Bool
  | [] => ([], false)
  | u :: rest =>
    if u.status = "processing" then
      let r := processUpdates rest
      (Event.reportProgress u.progress u.phase :: r.1, r.2)
    else if u.status = "completed" then
      ([Event.reportCompleted u.final_size u.access_urls.view], true)
    else if u.status = "failed" then
      ([Event.reportFailed u.error], true)
    else
      processUpdates rest

/-- `archive_url(url)`: construct client; try: submit, report the
acknowledgement, subscribe, run the monitoring loop; except: report the
error and `sys.exit(1)`; finally: close. -/
def archive_url (url : String) (cb : ClientBehavior) : List Event × Nat :=
  match cb.createResult with
  | Except.error e =>
      ([Event.clientConstructed, Event.submitCalled url defaultOptions,
        Event.reportArchiveError e.message, Event.closeCalled], 1)
  | Except.ok r =>
      let pre := [Event.clientConstructed, Event.submitCalled url defaultOptions,
        Event.reportSubmitted r.archive_id r.status r.total_cost,
        Event.subscribeCalled r.archive_id]
      let lp := processUpdates cb.updates
      if lp.2 then
        (pre ++ lp.1 ++ [Event.closeCalled], 0)
      else
        match cb.streamTailErr with
        | some e =>
            (pre ++ lp.1 ++ [Event.reportArchiveError e.message,
              Event.closeCalled], 1)
        | none => (pre ++ lp.1 ++ [Event.closeCalled], 0)

/-- `get_archive_info(archive_id)`: construct client; try: lookup and
report the record; except: report the error message (no `sys.exit`);
finally: close. Returns normally in every case, so its exit code is 0. -/
def get_archive_info (archive_id : String) (cb : ClientBehavior) :
    List Event × Nat :=
  match cb.lookupResult with
  | Except.ok a =>
      ([Event.clientConstructed, Event.lookupCalled archive_id,
        Event.reportRecord a.url a.metadata.title a.status a.size a.created_at
          a.replicas.length a.storage_info.integrity_score a.access_urls.view,
        Event.closeCalled], 0)
  | Except.error e =>
      ([Event.clientConstructed, Event.lookupCalled archive_id,
        Event.reportLookupError e.message, Event.closeCalled], 0)

/-- Python `str.startswith`: prefix test on the character sequence. -/
def strStartsWith (s p : String) : Bool :=
  p.data.isPrefixOf s.data

/-- Python truthiness of `os.getenv` result: `not api_key` is true for
an absent variable and for the empty string. -/
def apiKeyPresent : Option String → Bool
  | none => false
  | some s => !s.isEmpty

/-- `main()`: usage check, configuration check, then dispatch to the
info path (`argv[1] == "info" and len(argv) >= 3`) or, after the url
scheme validation, to the archive path. -/
def main (argv : List String) (api_key : Option String)
    (cb : ClientBehavior) : List Event × Nat :=
  match argv with
  | _ :: arg1 :: rest =>
    if apiKeyPresent api_key then
      if arg1 = "info" ∧ rest ≠ [] then
        get_archive_info (rest.headD "") cb
      else if strStartsWith arg1 "http://" || strStartsWith arg1 "https://" then
        archive_url arg1 cb
      else
        ([Event.reportInvalidUrl], 1)
    else
      ([Event.reportMissingApiKey], 1)
  | _ => ([Event.reportUsage], 1)

/-- A processing update used in concrete runs. -/
def mkProcessing (p : Nat) (ph : String) : Update :=
  { status := "processing", progress := p, phase := ph, final_size := 0,
    access_urls := { view := "" }, error := "" }

/-- A completed update used in concrete runs. -/
def mkCompleted (sz : Nat) (v : String) : Update :=
  { status := "completed", progress := 100, phase := "", final_size := sz,
    access_urls := { view := v }, error := "" }

/-- An update with the non-handled status pending, used in concrete runs. -/
def mkPending : Update :=
  { status := "pending", progress := 0, phase := "", final_size := 0,
    access_urls := { view := "" }, error := "" }

/-- A failed update used in concrete runs. -/
def mkFailed (err : String) : Update :=
  { status := "failed", progress := 0, phase := "", final_size := 0,
    access_urls := { view := "" }, error := err }

/-- A looked-up record used in concrete runs. -/
def sampleRecord : ArchiveRecord :=
  { url := "https://example.com", metadata := { title := "t" },
    status := "completed", size := 4096, created_at := "2024-01-01",
    replicas := ["r1", "r2"], storage_info := { integrity_score := 99 },
    access_urls := { view := "https://view.example" } }

/-- A client behavior with a successful submission, a stream ending in a
failed terminal update, and a lookup that raises NotFoundError. -/
def sampleOkCb : ClientBehavior :=
  { createResult := Except.ok
      { archive_id := "arc_1", status := "pending", total_cost := 7 },
    updates := [mkProcessing 10 "crawl", mkFailed "timeout"],
    streamTailErr := none,
    lookupResult := Except.error (Exc.notFoundError "unknown archive") }

/-- Client behavior whose monitoring stream delivers a failed terminal
update. -/
def c1cb : ClientBehavior :=
  { createResult := Except.ok
      { archive_id := "arc_9", status := "pending", total_cost := 5 },
    updates := [mkFailed "timeout"],
    streamTailErr := none,
    lookupResult := Except.ok sampleRecord }

/-- Client behavior whose lookup raises NotFoundError with message boom. -/
def c7nf : ClientBehavior :=
  { createResult := Except.error (Exc.genericError "unused"),
    updates := [], streamTailErr := none,
    lookupResult := Except.error (Exc.notFoundError "boom") }

/-- Client behavior whose lookup raises TransportError with message boom. -/
def c7te : ClientBehavior :=
  { createResult := Except.error (Exc.genericError "unused"),
    updates := [], streamTailErr := none,
    lookupResult := Except.error (Exc.transportError "boom") }

/-- Client behavior delivering the claim C8 update sequence:
processing(10), processing(55), completed(final_size=4096, view=U). -/
def c8cb : ClientBehavior :=
  { createResult := Except.ok
      { archive_id := "arc_8", status := "pending", total_cost := 12 },
    updates := [mkProcessing 10 "crawl", mkProcessing 55 "store",
      mkCompleted 4096 "https://view.example/arc_8"],
    streamTailErr := none,
    lookupResult := Except.ok sampleRecord }

/-- Number of close calls in a trace. -/
def closeCount (tr : List Event) : Nat :=
  (tr.filter isCloseEvent).length

theorem processUpdates_append_of_no_terminal (pre X : List Update)
    (hpre : ∀ v ∈ pre, isTerminal v = false) :
    processUpdates (pre ++ X) =
      ((processUpdates pre).1 ++ (processUpdates X).1, (processUpdates X).2) := by
  induction pre with
  | nil => simp [processUpdates]
  | cons v vs ih =>
    have hv := hpre v (by simp)
    have hvs : ∀ w ∈ vs, isTerminal w = false := fun w hw => hpre w (by simp [hw])
    have hvc : ¬ v.status = "completed" := fun h => by simp [isTerminal, h] at hv
    have hvf : ¬ v.status = "failed" := fun h => by simp [isTerminal, h] at hv
    by_cases hp : v.status = "processing"
    · simp [processUpdates, hp, ih hvs]
    · simp [processUpdates, hp, hvc, hvf, ih hvs]

theorem processUpdates_no_close (us : List Update) :
    ((processUpdates us).1.filter isCloseEvent) = [] := by
  induction us with
  | nil => simp [processUpdates]
  | cons u rest ih =>
    by_cases h1 : u.status = "processing"
    · simp [processUpdates, h1, isCloseEvent, ih]
    · by_cases h2 : u.status = "completed"
      · simp [processUpdates, h1, h2, isCloseEvent]
      · by_cases h3 : u.status = "failed"
        · simp [processUpdates, h1, h2, h3, isCloseEvent]
        · simp [processUpdates, h1, h2, h3, ih]

/-- Claim C1 counterexample: an archive run whose monitoring loop ends with a
failed terminal update still exits with process code 0, not non-zero. -/
theorem c1_failed_terminal_exit_zero :
    Event.reportFailed "timeout" ∈
      (main ["simple_archive.py", "https://example.com"] (some "key") c1cb).1 ∧
    (main ["simple_archive.py", "https://example.com"] (some "key") c1cb).2 = 0 := by
  decide

/-- Claim C1 (amended): when the submission succeeds and the monitoring loop
exits at a terminal update, completed or failed alike, the process exit code
is 0; a non-zero exit arises only from a raised exception. -/
theorem c1_terminal_update_exit_zero (prog url : String) (key : Option String)
    (cb : ClientBehavior) (r : CreateResult)
    (hk : apiKeyPresent key = true)
    (hu : strStartsWith url "https://" = true)
    (h : cb.createResult = Except.ok r)
    (hb : (processUpdates cb.updates).2 = true) :
    (main [prog, url] key cb).2 = 0 := by
  have hmain : main [prog, url] key cb = archive_url url cb := by
    unfold main
    simp [hk, hu]
  rw [hmain]
  simp [archive_url, h, hb]

theorem c1_terminal_update_exit_zero_witness :
    (main ["simple_archive.py", "https://example.com"] (some "key") c1cb).2 = 0 :=
  c1_terminal_update_exit_zero "simple_archive.py" "https://example.com"
    (some "key") c1cb
    { archive_id := "arc_9", status := "pending", total_cost := 5 }
    (by decide) (by decide) (by decide) (by decide)

/-- Claim C2 counterexample: an info run whose lookup raises NotFoundError
reports the error yet the process exit code is 0, not non-zero. -/
theorem c2_lookup_error_exit_zero :
    Event.reportLookupError "unknown archive" ∈
      (main ["simple_archive.py", "info", "arc_404"] (some "key") sampleOkCb).1 ∧
    (main ["simple_archive.py", "info", "arc_404"] (some "key") sampleOkCb).2 = 0 := by
  decide

/-- Claim C2 (amended): the info path exits with process code 0 both on a
successful lookup and when the lookup raises NotFoundError or TransportError;
the except handler prints the error and returns normally. -/
theorem c2_info_exit_always_zero (prog aid : String) (more : List String)
    (key : Option String) (cb : ClientBehavior)
    (hk : apiKeyPresent key = true) :
    (main (prog :: "info" :: aid :: more) key cb).2 = 0 := by
  have hmain : main (prog :: "info" :: aid :: more) key cb =
      get_archive_info aid cb := by
    unfold main
    simp [hk]
  rw [hmain]
  cases h : cb.lookupResult <;> simp [get_archive_info, h]

theorem c2_info_exit_always_zero_witness :
    (main ["simple_archive.py", "info", "arc_404"] (some "key") sampleOkCb).2 = 0 :=
  c2_info_exit_always_zero "simple_archive.py" "arc_404" [] (some "key")
    sampleOkCb (by decide)

/-- Claim C3: with the api key present, an archive invocation whose url does
not start with http:// or https:// reports the invalid url, exits 1, and
performs no client-capability call at all. -/
theorem c3_invalid_url_no_client_calls (prog url : String) (key : Option String)
    (cb : ClientBehavior) (hk : apiKeyPresent key = true)
    (h1 : strStartsWith url "http://" = false)
    (h2 : strStartsWith url "https://" = false) :
    main [prog, url] key cb = ([Event.reportInvalidUrl], 1) ∧
    ((main [prog, url] key cb).1.filter isClientEvent) = [] := by
  have hmain : main [prog, url] key cb = ([Event.reportInvalidUrl], 1) := by
    unfold main
    simp only [hk, if_true]
    have hinfo : ¬ (url = "info" ∧ ([] : List String) ≠ []) := by simp
    rw [if_neg hinfo, if_neg (by simp [h1, h2])]
  exact ⟨hmain, by rw [hmain]; simp [isClientEvent]⟩

theorem c3_invalid_url_no_client_calls_witness :
    main ["simple_archive.py", "ftp://example.com"] (some "key") sampleOkCb =
      ([Event.reportInvalidUrl], 1) ∧
    ((main ["simple_archive.py", "ftp://example.com"] (some "key")
      sampleOkCb).1.filter isClientEvent) = [] :=
  c3_invalid_url_no_client_calls "simple_archive.py" "ftp://example.com"
    (some "key") sampleOkCb (by decide) (by decide) (by decide)

/-- Claim C4: when the api key is absent or empty, every invocation exits
with code 1 before any client-capability call, on the archive and the info
paths alike. -/
theorem c4_missing_api_key_no_client_calls (argv : List String)
    (key : Option String) (cb : ClientBehavior)
    (hk : apiKeyPresent key = false) :
    (main argv key cb).2 = 1 ∧
    ((main argv key cb).1.filter isClientEvent) = [] := by
  cases argv with
  | nil => simp [main, isClientEvent]
  | cons p t =>
    cases t with
    | nil => simp [main, isClientEvent]
    | cons a r => simp [main, hk, isClientEvent]

theorem c4_missing_api_key_no_client_calls_witness :
    (main ["simple_archive.py", "info", "arc_1"] none sampleOkCb).2 = 1 ∧
    ((main ["simple_archive.py", "info", "arc_1"] none
      sampleOkCb).1.filter isClientEvent) = [] :=
  c4_missing_api_key_no_client_calls ["simple_archive.py", "info", "arc_1"]
    none sampleOkCb (by decide)

/-- Claim C5: the monitoring loop consumes updates in delivery order and
stops at the first terminal update: on a sequence whose first terminal
update is u, the loop output equals the output on the sequence truncated
right after u, and the loop exits by break there, so no later update is
processed or reported. -/
theorem c5_loop_stops_at_first_terminal (pre suf : List Update) (u : Update)
    (hpre : ∀ v ∈ pre, isTerminal v = false) (hu : isTerminal u = true) :
    processUpdates (pre ++ u :: suf) = processUpdates (pre ++ [u]) ∧
    (processUpdates (pre ++ u :: suf)).2 = true := by
  have key := processUpdates_append_of_no_terminal pre (u :: suf) hpre
  have key2 := processUpdates_append_of_no_terminal pre [u] hpre
  have hu2 : u.status = "completed" ∨ u.status = "failed" := by
    simpa [isTerminal] using hu
  have hstep1 : processUpdates (u :: suf) = processUpdates [u] := by
    rcases hu2 with h | h <;> simp [processUpdates, h]
  have hstep2 : (processUpdates [u]).2 = true := by
    rcases hu2 with h | h <;> simp [processUpdates, h]
  constructor
  · rw [key, key2, hstep1]
  · rw [key]
    simpa [hstep1] using hstep2

theorem c5_loop_stops_at_first_terminal_witness :
    processUpdates [mkProcessing 10 "crawl", mkCompleted 4096 "https://v",
      mkProcessing 99 "late"] =
      processUpdates [mkProcessing 10 "crawl", mkCompleted 4096 "https://v"] ∧
    (processUpdates [mkProcessing 10 "crawl", mkCompleted 4096 "https://v",
      mkProcessing 99 "late"]).2 = true :=
  c5_loop_stops_at_first_terminal [mkProcessing 10 "crawl"]
    [mkProcessing 99 "late"] (mkCompleted 4096 "https://v")
    (by decide) (by decide)

/-- Claim C6: on every execution path of either operation, success or any
raised error, the client close step is invoked exactly once. -/
theorem c6_close_called_exactly_once (url aid : String) (cb : ClientBehavior) :
    closeCount (archive_url url cb).1 = 1 ∧
    closeCount (get_archive_info aid cb).1 = 1 := by
  constructor
  · unfold archive_url closeCount
    cases h : cb.createResult with
    | error e => simp [isCloseEvent]
    | ok r =>
      have hn := processUpdates_no_close cb.updates
      by_cases hb : (processUpdates cb.updates).2 = true
      · simp [hb, List.filter_append, hn, isCloseEvent]
      · cases hs : cb.streamTailErr <;>
          simp [hb, hs, List.filter_append, hn, isCloseEvent]
  · unfold get_archive_info closeCount
    cases h : cb.lookupResult <;> simp [isCloseEvent]

/-- Claim C7 counterexample: runs of the info operation against a
NotFoundError and against a TransportError carrying the same message are
observationally identical, so the kind is not distinguishable. -/
theorem c7_notfound_indistinguishable :
    get_archive_info "unknown-id" c7nf = get_archive_info "unknown-id" c7te ∧
    c7nf.lookupResult ≠ c7te.lookupResult := by
  decide

/-- Claim C7 (amended): the except handler reports only the message of the
raised error: the NotFoundError message reaches the caller, but the report
does not distinguish its kind from a TransportError or a generic failure
with the same message. -/
theorem c7_lookup_error_message_reported (aid : String) (cb : ClientBehavior)
    (e : Exc) (h : cb.lookupResult = Except.error e) :
    (get_archive_info aid cb).1 =
      [Event.clientConstructed, Event.lookupCalled aid,
       Event.reportLookupError e.message, Event.closeCalled] := by
  unfold get_archive_info
  rw [h]

theorem c7_lookup_error_message_reported_witness :
    (get_archive_info "unknown-id" c7nf).1 =
      [Event.clientConstructed, Event.lookupCalled "unknown-id",
       Event.reportLookupError "boom", Event.closeCalled] :=
  c7_lookup_error_message_reported "unknown-id" c7nf
    (Exc.notFoundError "boom") (by decide)

/-- Claim C8 counterexample: on the sequence processing(10), processing(55),
completed(4096, U) the loop emits two progress reports, not three. -/
theorem c8_two_progress_events_not_three :
    ((archive_url "https://example.com" c8cb).1.filter isProgressEvent).length
      = 2 ∧ (2 : Nat) ≠ 3 := by
  decide

/-- Claim C8 (amended): for the update sequence processing(10),
processing(55), completed(final_size=4096, view=U) the loop reports two
progress events, then the completion with final_size=4096 and the view url
U, and the operation exits with code 0. -/
theorem c8_sequence_trace (url id st ph1 ph2 U : String) (cost : Nat)
    (tail : Option Exc) (lr : Except Exc ArchiveRecord) :
    archive_url url
      { createResult := Except.ok
          { archive_id := id, status := st, total_cost := cost },
        updates := [mkProcessing 10 ph1, mkProcessing 55 ph2,
          mkCompleted 4096 U],
        streamTailErr := tail, lookupResult := lr } =
    ([Event.clientConstructed, Event.submitCalled url defaultOptions,
      Event.reportSubmitted id st cost, Event.subscribeCalled id,
      Event.reportProgress 10 ph1, Event.reportProgress 55 ph2,
      Event.reportCompleted 4096 U, Event.closeCalled], 0) := by
  simp [archive_url, processUpdates, mkProcessing, mkCompleted]

/-- Claim C9: the request is built with the default options
include_assets=true, max_depth=2, preserve_javascript=false, timeout=30,
and the reported archive_id and cost are exactly those returned by submit. -/
theorem c9_defaults_and_passthrough (url : String) (cb : ClientBehavior)
    (r : CreateResult) (h : cb.createResult = Except.ok r) :
    defaultOptions = { include_assets := true, max_depth := 2,
                       preserve_javascript := false, timeout := 30 } ∧
    Event.submitCalled url defaultOptions ∈ (archive_url url cb).1 ∧
    Event.reportSubmitted r.archive_id r.status r.total_cost ∈
      (archive_url url cb).1 := by
  refine ⟨rfl, ?_, ?_⟩ <;>
  · by_cases hb : (processUpdates cb.updates).2 = true
    · simp [archive_url, h, hb]
    · cases hs : cb.streamTailErr <;> simp [archive_url, h, hb, hs]

theorem c9_defaults_and_passthrough_witness :
    defaultOptions = { include_assets := true, max_depth := 2,
                       preserve_javascript := false, timeout := 30 } ∧
    Event.submitCalled "https://example.com" defaultOptions ∈
      (archive_url "https://example.com" sampleOkCb).1 ∧
    Event.reportSubmitted "arc_1" "pending" 7 ∈
      (archive_url "https://example.com" sampleOkCb).1 :=
  c9_defaults_and_passthrough "https://example.com" sampleOkCb
    { archive_id := "arc_1", status := "pending", total_cost := 7 }
    (by decide)

/-- Claim C10: an update whose status is none of processing, completed and
failed produces no report and the loop simply continues with the remaining
updates; it never terminates the loop. -/
theorem c10_unknown_status_skipped (u : Update) (us : List Update)
    (h1 : u.status ≠ "processing") (h2 : u.status ≠ "completed")
    (h3 : u.status ≠ "failed") :
    processUpdates (u :: us) = processUpdates us := by
  simp [processUpdates, h1, h2, h3]

theorem c10_unknown_status_skipped_witness :
    processUpdates [mkPending, mkProcessing 10 "crawl"] =
      processUpdates [mkProcessing 10 "crawl"] :=
  c10_unknown_status_skipped mkPending [mkProcessing 10 "crawl"]
    (by decide) (by decide) (by decide)

end SimpleArchive
